import Mathlib

/-!
# Verification of the scrape_stream track-capture engine

Shallow embedding of the relevant parts of `scrape_stream.py` (the per-channel
capture loop and its helpers) and of the path gate in `serve_stream.py`, with
theorems settling the spec's claims about them.

Conventions of the embedding:
* wall-clock times and durations are rationals (seconds);
* the Python `set` of downloaded ids is a `List Int` updated with `List.insert`
  (which adds only when absent, like `set.add`);
* external effects observed by one loop iteration (the metadata responses, the
  `os.path.exists` probe, the download outcome, the two `datetime.now()` reads)
  are packaged as an `Obs` record, so one iteration of the `while True:` body
  is the pure function `step : List Int → Obs → Action × List Int` returning
  the branch taken and the updated id set.
-/

namespace ScrapeStream

/-- One entry of the `currently_playing` response matched to our channel:
`currently_playing["track"]` with its `id`, `start_time`, `duration`
(`scrape_stream.py` lines 134, 148-149, 172-173). -/
structure PlayingTrack where
  trackId : Int
  startTime : ℚ
  duration : ℚ
deriving DecidableEq

/-- One entry of `routine["tracks"]`: `id`, display names, and the flattened
`content.assets` url list (`scrape_stream.py` lines 137-139, 156-157, 163-164). -/
structure RoutineTrack where
  id : Int
  display_artist : String
  display_title : String
  assets : List String
deriving DecidableEq

/-- The external effects one iteration of the `while True:` loop observes:
whether `get_routine` succeeded (it raises on non-200, caught by the `except`
at line 197), the `get_currently_playing` result, the routine track list, the
`datetime.now` read at line 151, the `os.path.exists(output_path)` probe at
line 168, the `download_track` outcome at line 180, and the `datetime.now`
read at line 189 (taken after the download finishes). -/
structure Obs where
  routineOk : Bool
  currentlyPlaying : Option PlayingTrack
  routineTracks : List RoutineTrack
  pollNow : ℚ
  outputExists : Bool
  downloadOk : Bool
  postNow : ℚ
deriving DecidableEq

/-- Which branch of the loop body an iteration took, with the sleep it
performs (in seconds) where the sleep depends on the observation. -/
inductive Action where
  /-- `except Exception` handler: print and `time.sleep(10)` (lines 197-199). -/
  | errorBackoff : Action
  /-- `if not currently_playing: time.sleep(10); continue` (lines 130-132). -/
  | noCurrent : Action
  /-- current id not found in `routine["tracks"]`: `time.sleep(10); continue`
  (lines 142-144). -/
  | trackNotInRoutine : Action
  /-- dedup gate hit: `time.sleep(min(time_left + 2, 30)); continue`
  (lines 146-154). -/
  | skipWait (sleep : ℚ) : Action
  /-- `if not assets`: mark id downloaded, `time.sleep(5); continue`
  (lines 158-161). -/
  | skipNoAssets : Action
  /-- `if os.path.exists(output_path)`: mark id downloaded, `continue`
  (lines 168-170). -/
  | alreadyOnDisk : Action
  /-- `download_track` returned True: move temp file, mark id downloaded,
  then wait out the track (lines 180-183, 189-193). -/
  | downloadSuccess (sleep : ℚ) : Action
  /-- `download_track` returned False: remove temp file, id NOT marked,
  then the same end-of-track wait (lines 184-187, 189-193). -/
  | downloadFailure (sleep : ℚ) : Action
deriving DecidableEq

/-- True exactly on the two branches that invoked `download_track`. -/
def Action.isDownload : Action → Bool
  | .downloadSuccess _ => true
  | .downloadFailure _ => true
  | _ => false

/-- `sanitize_filename` (`scrape_stream.py` lines 108-110):
`"".join(c for c in name if c not in r'<>:"/\|?*')`. -/
def forbiddenChars : List Char := ['<', '>', ':', '"', '/', '\\', '|', '?', '*']

/-- Remove invalid filename characters (`scrape_stream.py` lines 108-110). -/
def sanitize_filename (name : String) : String :=
  ⟨name.data.filter (fun c => !(forbiddenChars.contains c))⟩

/-- `elapsed` as computed at line 151: `now - start_time` in seconds. -/
def elapsedOf (startTime now : ℚ) : ℚ := now - startTime

/-- `time_left` as computed at line 152: `max(0, duration - elapsed)`. -/
def timeLeftOf (duration elapsed : ℚ) : ℚ := max 0 (duration - elapsed)

/-- The end-of-track wait performed after a download attempt
(lines 189-193): sleep `time_left + 1` if `time_left > 0`, else nothing
(modelled as a 0-second sleep). -/
def endWait (cp : PlayingTrack) (postNow : ℚ) : ℚ :=
  let timeLeft := cp.startTime + cp.duration - postNow
  if 0 < timeLeft then timeLeft + 1 else 0

/-- One iteration of the `while True:` body of `scrape_channel`
(`scrape_stream.py` lines 125-199), as a pure function of the downloaded-id
set and the iteration's observation.  Returns the branch taken and the
updated id set. -/
def step (ids : List Int) (o : Obs) : Action × List Int :=
  if o.routineOk = false then (.errorBackoff, ids)
  else
    match o.currentlyPlaying with
    | none => (.noCurrent, ids)
    | some cp =>
      match o.routineTracks.find? (fun t => t.id == cp.trackId) with
      | none => (.trackNotInRoutine, ids)
      | some tr =>
        if cp.trackId ∈ ids then
          -- lines 148-153: time.sleep(min(time_left + 2, 30))
          let timeLeft := timeLeftOf cp.duration (elapsedOf cp.startTime o.pollNow)
          (.skipWait (min (timeLeft + 2) 30), ids)
        else if tr.assets = [] then
          (.skipNoAssets, ids.insert cp.trackId)
        else if o.outputExists = true then
          (.alreadyOnDisk, ids.insert cp.trackId)
        else if o.downloadOk = true then
          (.downloadSuccess (endWait cp o.postNow), ids.insert cp.trackId)
        else
          (.downloadFailure (endWait cp o.postNow), ids)

/-- The downloaded-id set after running the loop over a list of successive
observations. -/
def runIds (ids : List Int) : List Obs → List Int
  | [] => ids
  | o :: os => runIds (step ids o).2 os

/-- Error outcomes of the metadata client calls that raise. -/
inductive MetaErr where
  /-- non-success channel-list response (`Failed to get channels`, line 56). -/
  | upstreamUnavailable : MetaErr
  /-- key absent from the channel list (`Channel not found`, line 61). -/
  | channelNotFound : MetaErr
deriving DecidableEq

/-- One entry of the `/channels` response (`scrape_stream.py` lines 58-60). -/
structure Chan where
  key : String
  id : Int
deriving DecidableEq

/-- `get_channel_id` (`scrape_stream.py` lines 51-61), as a function of the
HTTP status and decoded body of the `/channels` response: raise on non-200,
else return the id of the first entry whose `key` matches, else raise. -/
def get_channel_id (status : Nat) (chans : List Chan) (channel_key : String) :
    Except MetaErr Int :=
  if status ≠ 200 then .error .upstreamUnavailable
  else
    match chans.find? (fun ch => ch.key == channel_key) with
    | some ch => .ok ch.id
    | none => .error .channelNotFound

/-- One entry of the `/currently_playing` response (lines 80-82). -/
structure CPEntry where
  channel_id : Int
  track : PlayingTrack
deriving DecidableEq

/-- `get_currently_playing` (`scrape_stream.py` lines 73-83), as a function of
the HTTP status and decoded body: `None` on non-200, else the first entry
matching the channel id, else `None`.  Total — it never raises. -/
def get_currently_playing (status : Nat) (entries : List CPEntry)
    (channel_id : Int) : Option CPEntry :=
  if status ≠ 200 then none
  else entries.find? (fun cp => cp.channel_id == channel_id)

end ScrapeStream

namespace ServeStream

/-!
Model of the path handling in `serve_stream.py`.  Filesystem paths are lists
of components; `Path.resolve()` is modelled lexically (no symlinks): it
normalizes `.`, `..` and empty components.  `str(path)` for an absolute path
is `'/'` before each component, which is what the `startswith` comparison at
lines 436 and 457 operates on.
-/

/-- Split a path string on `/` into its components, dropping empty ones
(so `"a//b/"` gives `["a","b"]`, matching how `pathlib` parses). -/
def splitPath (s : String) : List String :=
  go s.data []
where
  /-- accumulate the current component's characters (reversed) and emit on `/`. -/
  go : List Char → List Char → List String
    | [], cur => if cur = [] then [] else [⟨cur.reverse⟩]
    | '/' :: rest, cur =>
        if cur = [] then go rest [] else ⟨cur.reverse⟩ :: go rest []
    | c :: rest, cur => go rest (c :: cur)

/-- Lexical normalization of an absolute path's components: `.` is dropped,
`..` pops the last component (at the root it is a no-op, as in POSIX
resolution of `/..`). `acc` holds the already-resolved components reversed. -/
def normComps (acc : List String) : List String → List String
  | [] => acc.reverse
  | c :: rest =>
      if c = "." then normComps acc rest
      else if c = ".." then normComps acc.tail rest
      else normComps (c :: acc) rest

/-- Whether a path string is absolute, i.e. starts with `/`. -/
def isAbsolute (s : String) : Bool :=
  match s.data with
  | '/' :: _ => true
  | _ => false

/-- `(MP3_DIR / rel_path).resolve()` (lines 435 and 456), lexically: a `rel`
starting with `/` replaces the root entirely (pathlib join semantics),
otherwise the components are appended, then `.`/`..` are resolved.
`root` is the already-resolved `MP3_DIR` component list. -/
def resolvePath (root : List String) (rel : String) : List String :=
  if isAbsolute rel then normComps [] (splitPath rel)
  else normComps root.reverse (splitPath rel)

/-- `str()` of an absolute path with the given components: `'/'` before each
component (`"/mnt/raid5/mp3s"` for `["mnt","raid5","mp3s"]`). -/
def pathChars (comps : List String) : List Char :=
  (comps.map (fun c => '/' :: c.data)).flatten

/-- The gate shared by `serve_mp3` (line 457) and the rate endpoint
(line 436): `str(full_path).startswith(str(MP3_DIR.resolve()))`. -/
def pathGate (root : List String) (rel : String) : Bool :=
  (pathChars root).isPrefixOf (pathChars (resolvePath root rel))

/-- The property the spec intends: the resolved path lies inside the library
tree, i.e. the root's components are an initial segment of the resolved
components. -/
def insideLibrary (root : List String) (rel : String) : Bool :=
  root.isPrefixOf (resolvePath root rel)

/-- HTTP status returned by `MusicHandler.serve_mp3` (lines 455-459), given
whether the resolved target `is_file()`: 404 unless the prefix gate and the
file check pass (on success the code answers 200, or 206 for a Range
request — both modelled as 200). -/
def serve_mp3_status (root : List String) (rel : String) (isFile : Bool) : Nat :=
  if pathGate root rel && isFile then 200 else 404

/-- HTTP status returned by the `/api/rate` handler (lines 423-451): 400 for
an out-of-range rating (line 432), 400 when the prefix gate or the file
check fails (line 437), else 200 with `{"ok": True}`. -/
def rate_status (root : List String) (rel : String) (isFile : Bool)
    (rating : Int) : Nat :=
  if rating < 0 ∨ 5 < rating then 400
  else if pathGate root rel && isFile then 200
  else 400

end ServeStream

namespace ScrapeStream

/-! Concrete observations used to instantiate the theorems below. -/

/-- A current track (id 5) that started 50 s ago with 50 s left. -/
def cpLongLeft : PlayingTrack := ⟨5, 0, 100⟩

/-- Observation of `cpLongLeft` with an asset available, 50 s into the
track. -/
def obsLongLeft : Obs :=
  ⟨true, some cpLongLeft, [⟨5, "Artist", "Title", ["//u"]⟩], 50, false, true, 50⟩

/-- A current track (id 2) with only 1 s remaining. -/
def cpShortLeft : PlayingTrack := ⟨2, 0, 10⟩

/-- Observation of `cpShortLeft` 9 s into its 10 s duration: remaining is
1 s, an asset is available, the destination file does not exist, and the
download succeeds. -/
def obsShortLeft : Obs :=
  ⟨true, some cpShortLeft, [⟨2, "Artist", "Title", ["//u"]⟩], 9, false, true, 9⟩

/-- A current track (id 3) of 100 s just started. -/
def cpFail100 : PlayingTrack := ⟨3, 0, 100⟩

/-- Observation of `cpFail100` at its very start where the download FAILS:
the post-download clock still reads 0, so 100 s of the track remain. -/
def obsFail100 : Obs :=
  ⟨true, some cpFail100, [⟨3, "Artist", "Title", ["//u"]⟩], 0, false, false, 0⟩

/-- A current track (id 4) of 200 s just started. -/
def cpFail200 : PlayingTrack := ⟨4, 0, 200⟩

/-- Same failing observation as `obsFail100` but for the 200 s track. -/
def obsFail200 : Obs :=
  ⟨true, some cpFail200, [⟨4, "Artist", "Title", ["//u"]⟩], 0, false, false, 0⟩

/-- A current track (id 6) whose routine entry has an empty asset list. -/
def cpNoAssets : PlayingTrack := ⟨6, 0, 100⟩

/-- Observation of `cpNoAssets` where `content.assets` is empty. -/
def obsNoAssets : Obs :=
  ⟨true, some cpNoAssets, [⟨6, "Artist", "Title", []⟩], 10, false, true, 10⟩

/-! Helper lemmas about `step` and `runIds`, shared by the claim theorems. -/

/-- No branch of the loop body ever removes an id from `downloaded_ids`. -/
theorem mem_step_ids {i : Int} {ids : List Int} (o : Obs) (h : i ∈ ids) :
    i ∈ (step ids o).2 := by
  unfold step
  repeat' split
  all_goals simp_all [List.mem_insert_iff]

/-- Ids survive any number of further iterations: the ledger is only ever
extended during a run. -/
theorem mem_runIds {i : Int} {ids : List Int} (os : List Obs) (h : i ∈ ids) :
    i ∈ runIds ids os := by
  induction os generalizing ids with
  | nil => exact h
  | cons o os ih => exact ih (mem_step_ids o h)

/-- When the observed current track is found in the routine and its id is
already in `downloaded_ids`, the iteration takes the skip-wait branch with
sleep `min(max(0, duration - elapsed) + 2, 30)` (lines 146-154). -/
theorem step_skips_of_mem {ids : List Int} {o : Obs} {cp : PlayingTrack}
    {tr : RoutineTrack}
    (hok : o.routineOk = true)
    (hcp : o.currentlyPlaying = some cp)
    (hfind : o.routineTracks.find? (fun t => t.id == cp.trackId) = some tr)
    (hmem : cp.trackId ∈ ids) :
    step ids o =
      (.skipWait (min (timeLeftOf cp.duration (elapsedOf cp.startTime o.pollNow) + 2) 30),
       ids) := by
  unfold step
  simp [hok, hcp, hfind, hmem]

/-- A track whose id is already in `downloaded_ids` never reaches the
download call, whatever the rest of the observation looks like. -/
theorem step_no_download_of_mem {ids : List Int} {o : Obs} {cp : PlayingTrack}
    (hcp : o.currentlyPlaying = some cp) (hmem : cp.trackId ∈ ids) :
    ((step ids o).1).isDownload = false := by
  unfold step
  by_cases hok : o.routineOk = false
  · simp [hok, Action.isDownload]
  · cases hfind : o.routineTracks.find? (fun t => t.id == cp.trackId) with
    | none => simp [hok, hcp, hfind, Action.isDownload]
    | some tr => simp [hok, hcp, hfind, hmem, Action.isDownload]

/-- C1: once a track id is in a channel's `downloaded_ids` — however it got
there — it stays there for the rest of the run, any later poll observing the
same id never invokes the download step, and whenever the track is also
found in the routine the top-of-loop dedup gate diverts to the skip-wait
branch. -/
theorem c1_dedup_gate_permanent (ids : List Int) (pre : List Obs) (o : Obs)
    (i : Int) (cp : PlayingTrack)
    (hmem : i ∈ ids)
    (hcp : o.currentlyPlaying = some cp) (hid : cp.trackId = i) :
    i ∈ runIds ids pre ∧
    ((step (runIds ids pre) o).1).isDownload = false ∧
    (o.routineOk = true →
      ∀ tr, o.routineTracks.find? (fun t => t.id == cp.trackId) = some tr →
        ∃ s, (step (runIds ids pre) o).1 = Action.skipWait s) := by
  subst hid
  have hmem' : cp.trackId ∈ runIds ids pre := mem_runIds pre hmem
  refine ⟨hmem', step_no_download_of_mem hcp hmem', fun hok tr hfind => ?_⟩
  exact ⟨_, by rw [step_skips_of_mem hok hcp hfind hmem']⟩

/-- C1 witness: with id 5 already captured and a poll observing track 5,
the iteration does not download. -/
theorem c1_dedup_gate_permanent_witness :
    ((step (runIds [(5 : Int)] []) obsLongLeft).1).isDownload = false :=
  (c1_dedup_gate_permanent [5] [] obsLongLeft 5 cpLongLeft (by decide)
    rfl rfl).2.1

/-- C5: a poll observing an already-captured current track sleeps exactly
`min(time_left + 2, 30)` seconds, where `time_left = max(0, duration -
elapsed)`, and that sleep never exceeds the 30-second cap. -/
theorem c5_skip_wait_sleep_capped (ids : List Int) (o : Obs)
    (cp : PlayingTrack) (tr : RoutineTrack)
    (hok : o.routineOk = true)
    (hcp : o.currentlyPlaying = some cp)
    (hfind : o.routineTracks.find? (fun t => t.id == cp.trackId) = some tr)
    (hmem : cp.trackId ∈ ids) :
    (step ids o).1 =
      Action.skipWait
        (min (timeLeftOf cp.duration (elapsedOf cp.startTime o.pollNow) + 2) 30) ∧
    min (timeLeftOf cp.duration (elapsedOf cp.startTime o.pollNow) + 2) 30 ≤ 30 :=
  ⟨by rw [step_skips_of_mem hok hcp hfind hmem], min_le_right _ _⟩

/-- C5 witness: for a captured track with 50 s left, the skip-wait sleep is
exactly `min(50 + 2, 30) = 30` seconds. -/
theorem c5_skip_wait_sleep_capped_witness :
    (step [(5 : Int)] obsLongLeft).1 = Action.skipWait 30 := by
  rw [(c5_skip_wait_sleep_capped [5] obsLongLeft cpLongLeft
    ⟨5, "Artist", "Title", ["//u"]⟩ rfl rfl (by decide) (by decide)).1]
  norm_num [timeLeftOf, elapsedOf, obsLongLeft, cpLongLeft, max_def, min_def]

/-- C2 counterexample: at `obsShortLeft` only 1 second of the track remains
— far below the ≈5 s epsilon — yet the iteration still takes the download
branch: the code has no epsilon gate before the capture step. -/
theorem c2_epsilon_gate_counterexample :
    timeLeftOf cpShortLeft.duration
      (elapsedOf cpShortLeft.startTime obsShortLeft.pollNow) < 5 ∧
    ((step [] obsShortLeft).1).isDownload = true := by
  constructor
  · norm_num [timeLeftOf, elapsedOf, cpShortLeft, obsShortLeft, max_def]
  · simp [step, obsShortLeft, cpShortLeft, endWait, List.find?, Action.isDownload]

/-- C2 amended: the scheduler never consults the remaining time before a
capture: whenever the dedup gate, the asset-presence check and the
file-exists check all pass, the download step is invoked, for every value of
the track's remaining time. -/
theorem c2_download_regardless_of_remaining (ids : List Int) (o : Obs)
    (cp : PlayingTrack) (tr : RoutineTrack)
    (hok : o.routineOk = true)
    (hcp : o.currentlyPlaying = some cp)
    (hfind : o.routineTracks.find? (fun t => t.id == cp.trackId) = some tr)
    (hmem : cp.trackId ∉ ids) (hassets : tr.assets ≠ [])
    (hfile : o.outputExists = false) :
    ((step ids o).1).isDownload = true := by
  unfold step
  by_cases hd : o.downloadOk = true <;>
    simp [hok, hcp, hfind, hmem, hassets, hfile, hd, Action.isDownload]

/-- C2 amended witness: the download branch is taken with 1 s remaining. -/
theorem c2_download_regardless_of_remaining_witness :
    ((step [] obsShortLeft).1).isDownload = true :=
  c2_download_regardless_of_remaining [] obsShortLeft cpShortLeft
    ⟨2, "Artist", "Title", ["//u"]⟩ rfl rfl (by decide) (by decide) (by decide) rfl

/-- C3 counterexample: after a failed download the scheduler's sleep is not
a short fixed delay — it is the track's remaining time plus one second
(101 s for a 100 s track, 201 s for a 200 s track), so the track has ended
by the next poll. -/
theorem c3_failure_sleep_counterexample :
    step [] obsFail100 = (Action.downloadFailure 101, []) ∧
    step [] obsFail200 = (Action.downloadFailure 201, []) ∧
    (101 : ℚ) ≠ 201 := by
  refine ⟨?_, ?_, by norm_num⟩ <;>
  · simp [step, obsFail100, obsFail200, cpFail100, cpFail200, endWait,
      List.find?]
    norm_num

/-- C3 amended: when a download fails, the temporary file is discarded and
the track id is NOT added to `downloaded_ids` (so a later poll that still
sees the track would retry it), but the scheduler then performs the same
end-of-track wait as the success path — `time_left + 1` seconds when
positive, not a short fixed delay — so the track has normally ended before
the next poll. -/
theorem c3_failure_not_marked_waits_track_end (ids : List Int) (o : Obs)
    (cp : PlayingTrack) (tr : RoutineTrack)
    (hok : o.routineOk = true)
    (hcp : o.currentlyPlaying = some cp)
    (hfind : o.routineTracks.find? (fun t => t.id == cp.trackId) = some tr)
    (hmem : cp.trackId ∉ ids) (hassets : tr.assets ≠ [])
    (hfile : o.outputExists = false) (hdl : o.downloadOk = false) :
    step ids o = (Action.downloadFailure (endWait cp o.postNow), ids) := by
  unfold step
  simp [hok, hcp, hfind, hmem, hassets, hfile, hdl]

/-- C3 amended witness: the failure branch at `obsFail100` leaves the id set
empty and waits out the track. -/
theorem c3_failure_not_marked_waits_track_end_witness :
    step [] obsFail100 =
      (Action.downloadFailure (endWait cpFail100 obsFail100.postNow), []) :=
  c3_failure_not_marked_waits_track_end [] obsFail100 cpFail100
    ⟨3, "Artist", "Title", ["//u"]⟩ rfl rfl (by decide) (by decide) (by decide)
    rfl rfl

/-- C7: a current track whose routine entry has no usable asset is added to
`downloaded_ids` (permanently skipped for the run): the iteration takes the
skip branch, the id is in the resulting set, and no later poll observing the
same id ever reaches the download step. -/
theorem c7_no_asset_permanent_skip (ids : List Int) (o : Obs)
    (cp : PlayingTrack) (tr : RoutineTrack)
    (hok : o.routineOk = true)
    (hcp : o.currentlyPlaying = some cp)
    (hfind : o.routineTracks.find? (fun t => t.id == cp.trackId) = some tr)
    (hmem : cp.trackId ∉ ids) (hassets : tr.assets = []) :
    step ids o = (Action.skipNoAssets, ids.insert cp.trackId) ∧
    cp.trackId ∈ (step ids o).2 ∧
    ∀ (pre : List Obs) (o2 : Obs) (cp2 : PlayingTrack),
      o2.currentlyPlaying = some cp2 → cp2.trackId = cp.trackId →
      ((step (runIds (step ids o).2 pre) o2).1).isDownload = false := by
  have hstep : step ids o = (Action.skipNoAssets, ids.insert cp.trackId) := by
    unfold step
    simp [hok, hcp, hfind, hmem, hassets]
  have hmem2 : cp.trackId ∈ (step ids o).2 := by
    rw [hstep]
    simp [List.mem_insert_iff]
  refine ⟨hstep, hmem2, fun pre o2 cp2 hcp2 hid2 => ?_⟩
  have : cp2.trackId ∈ runIds (step ids o).2 pre := by
    rw [hid2]
    exact mem_runIds pre hmem2
  exact step_no_download_of_mem hcp2 this

/-- C7 witness: track 6 with an empty asset list is marked captured. -/
theorem c7_no_asset_permanent_skip_witness :
    step [] obsNoAssets = (Action.skipNoAssets, List.insert 6 []) :=
  (c7_no_asset_permanent_skip [] obsNoAssets cpNoAssets
    ⟨6, "Artist", "Title", []⟩ rfl rfl (by decide) (by decide) rfl).1

/-- C4 counterexample: with `start_time = 0`, `duration = 10` and `T = 20`
(so `T ≥ start_time`), the clamp in `time_left = max(0, duration - elapsed)`
makes `elapsed + remaining = 20 ≠ 10`. -/
theorem c4_elapsed_plus_remaining_counterexample :
    (0 : ℚ) ≤ 20 ∧
    elapsedOf 0 20 + timeLeftOf 10 (elapsedOf 0 20) ≠ 10 := by
  constructor
  · norm_num
  · norm_num [elapsedOf, timeLeftOf, max_def]

/-- C4 amended: the identity `elapsed + remaining = duration` holds exactly
on `start_time ≤ T ≤ start_time + duration`; past the track's end the
`max(0, ·)` clamp pins `remaining` at 0 and the sum equals `elapsed`
instead. -/
theorem c4_elapsed_plus_remaining (start dur T : ℚ)
    (_h1 : start ≤ T) (h2 : T ≤ start + dur) :
    elapsedOf start T + timeLeftOf dur (elapsedOf start T) = dur := by
  unfold elapsedOf timeLeftOf
  rw [max_eq_right (by linarith)]
  ring

/-- C4 witness: 30 s into a 100 s track, elapsed + remaining = 100. -/
theorem c4_elapsed_plus_remaining_witness :
    elapsedOf 0 30 + timeLeftOf 100 (elapsedOf 0 30) = 100 :=
  c4_elapsed_plus_remaining 0 100 30 (by norm_num) (by norm_num)

/-- C6: `sanitize_filename` drops every occurrence of a character from the
forbidden set `<>:"/\|?*`, leaves the multiplicity of every other character
unchanged, and is idempotent. -/
theorem c6_sanitize_exact_idempotent (x : String) (c : Char) :
    (c ∈ forbiddenChars → ((sanitize_filename x).data.count c = 0)) ∧
    (c ∉ forbiddenChars →
      ((sanitize_filename x).data.count c = x.data.count c)) ∧
    sanitize_filename (sanitize_filename x) = sanitize_filename x := by
  refine ⟨fun hc => ?_, fun hc => ?_, ?_⟩
  · rw [List.count_eq_zero]
    intro hmemf
    have hp := List.of_mem_filter hmemf
    simp only [Bool.not_eq_true'] at hp
    exact absurd hc (by simpa using hp)
  · exact List.count_filter (by simpa using hc)
  · apply String.ext
    show ((x.data.filter (fun a => !(forbiddenChars.contains a))).filter
      (fun a => !(forbiddenChars.contains a))) = _
    simp [List.filter_filter, sanitize_filename]

/-- C6 witness: `<` is dropped from `"a<b"`, `a` is kept once, and
sanitizing twice changes nothing. -/
theorem c6_sanitize_exact_idempotent_witness :
    (sanitize_filename "a<b").data.count '<' = 0 ∧
    (sanitize_filename "a<b").data.count 'a' = "a<b".data.count 'a' ∧
    sanitize_filename (sanitize_filename "a<b") = sanitize_filename "a<b" := by
  have h1 := c6_sanitize_exact_idempotent "a<b" '<'
  have h2 := c6_sanitize_exact_idempotent "a<b" 'a'
  exact ⟨h1.1 (by decide), h2.2.1 (by decide), h1.2.2⟩

/-- C8: `get_channel_id` raises `UpstreamUnavailable` exactly on a
non-success channel-list response, raises `ChannelNotFound` exactly when the
response succeeds but no entry has the requested key, and otherwise returns
the id of the (first) entry with that key. -/
theorem c8_get_channel_id_spec (status : Nat) (chans : List Chan)
    (channel_key : String) :
    (status ≠ 200 →
      get_channel_id status chans channel_key = .error .upstreamUnavailable) ∧
    (status = 200 → (∀ ch ∈ chans, ch.key ≠ channel_key) →
      get_channel_id status chans channel_key = .error .channelNotFound) ∧
    (status = 200 →
      ∀ ch, chans.find? (fun c => c.key == channel_key) = some ch →
        get_channel_id status chans channel_key = .ok ch.id) := by
  refine ⟨fun h => by simp [get_channel_id, h], fun h habs => ?_,
    fun h ch hfind => by simp [get_channel_id, h, hfind]⟩
  have hnone : chans.find? (fun c => c.key == channel_key) = none := by
    rw [List.find?_eq_none]
    intro x hx
    simp [habs x hx]
  simp [get_channel_id, h, hnone]

/-- C8 witness: the three cases at concrete inputs. -/
theorem c8_get_channel_id_spec_witness :
    get_channel_id 503 [⟨"hardstyle", 9⟩] "hardstyle"
      = .error .upstreamUnavailable ∧
    get_channel_id 200 [⟨"hardstyle", 9⟩] "trance" = .error .channelNotFound ∧
    get_channel_id 200 [⟨"hardstyle", 9⟩] "hardstyle" = .ok 9 := by
  refine ⟨(c8_get_channel_id_spec 503 [⟨"hardstyle", 9⟩] "hardstyle").1
      (by decide),
    (c8_get_channel_id_spec 200 [⟨"hardstyle", 9⟩] "trance").2.1 rfl
      (by decide),
    (c8_get_channel_id_spec 200 [⟨"hardstyle", 9⟩] "hardstyle").2.2 rfl
      ⟨"hardstyle", 9⟩ (by decide)⟩

/-- C9: `get_currently_playing` is total and returns `none` both on a
non-success response and when no entry matches the channel id — the two
conditions are indistinguishable to the caller; a `some` result implies a
success response and a matching entry from the body. -/
theorem c9_get_currently_playing_total (status : Nat) (entries : List CPEntry)
    (channel_id : Int) :
    (status ≠ 200 → get_currently_playing status entries channel_id = none) ∧
    ((∀ e ∈ entries, e.channel_id ≠ channel_id) →
      get_currently_playing status entries channel_id = none) ∧
    (∀ e, get_currently_playing status entries channel_id = some e →
      status = 200 ∧ e.channel_id = channel_id ∧ e ∈ entries) := by
  refine ⟨fun h => by simp [get_currently_playing, h], fun habs => ?_,
    fun e he => ?_⟩
  · unfold get_currently_playing
    split
    · rfl
    · rw [List.find?_eq_none]
      intro x hx
      simp [habs x hx]
  · unfold get_currently_playing at he
    by_cases h : status ≠ 200
    · simp [h] at he
    · push_neg at h
      simp only [h, ne_eq, not_true_eq_false, if_false] at he
      exact ⟨h, by simpa using List.find?_some he,
        List.mem_of_find?_eq_some he⟩

/-- C9 witness: `none` both for a 503 response with a matching entry and for
a 200 response with no matching entry. -/
theorem c9_get_currently_playing_total_witness :
    get_currently_playing 503 [⟨7, ⟨1, 0, 100⟩⟩] 7 = none ∧
    get_currently_playing 200 [⟨8, ⟨1, 0, 100⟩⟩] 7 = none := by
  refine ⟨(c9_get_currently_playing_total 503 [⟨7, ⟨1, 0, 100⟩⟩] 7).1
      (by decide),
    (c9_get_currently_playing_total 200 [⟨8, ⟨1, 0, 100⟩⟩] 7).2.1 ?_⟩
  intro e he
  simp only [List.mem_singleton] at he
  subst he
  decide

end ScrapeStream

namespace ServeStream

/-- `pathChars` distributes over path concatenation. -/
theorem pathChars_append (a b : List String) :
    pathChars (a ++ b) = pathChars a ++ pathChars b := by
  simp [pathChars]

/-- C10 counterexample: with library root `/mnt/raid5/mp3s`, the request
path `../mp3s2/x.mp3` resolves to the sibling tree `/mnt/raid5/mp3s2` —
outside the library — yet passes the `startswith` string check, so both
endpoints operate on the file (status 200) although it is not under the
root. -/
theorem c10_path_escape_counterexample :
    serve_mp3_status ["mnt", "raid5", "mp3s"] "../mp3s2/x.mp3" true = 200 ∧
    rate_status ["mnt", "raid5", "mp3s"] "../mp3s2/x.mp3" true 3 = 200 ∧
    insideLibrary ["mnt", "raid5", "mp3s"] "../mp3s2/x.mp3" = false := by
  refine ⟨by decide, by decide, by decide⟩

/-- C10 amended: both endpoints reject (404 resp. 400) whenever the resolved
path's string does not start with the resolved root's string or the target
is not a file; every path genuinely inside the library tree passes the
string check — but the converse fails, so the gate is a string-prefix
containment check, not a directory containment check. -/
theorem c10_path_gate (root : List String) (rel : String) (isFile : Bool)
    (rating : Int) :
    (pathGate root rel = false ∨ isFile = false →
      serve_mp3_status root rel isFile = 404 ∧
      rate_status root rel isFile rating = 400) ∧
    (insideLibrary root rel = true → pathGate root rel = true) := by
  constructor
  · intro h
    have hgate : (pathGate root rel && isFile) = false := by
      rcases h with h | h <;> simp [h]
    refine ⟨by simp [serve_mp3_status, hgate], ?_⟩
    unfold rate_status
    split
    · rfl
    · simp [hgate]
  · intro h
    unfold insideLibrary at h
    rw [ List.isPrefixOf_iff_prefix] at h
    obtain ⟨t, ht⟩ := h
    unfold pathGate
    rw [ List.isPrefixOf_iff_prefix]
    exact ⟨pathChars t, by rw [← ht, pathChars_append]⟩

/-- C10 amended witness: a missing file is rejected by both endpoints, and a
plain in-library path passes the gate. -/
theorem c10_path_gate_witness :
    serve_mp3_status ["mnt", "raid5", "mp3s"] "x.mp3" false = 404 ∧
    rate_status ["mnt", "raid5", "mp3s"] "x.mp3" false 3 = 400 ∧
    pathGate ["mnt", "raid5", "mp3s"] "x.mp3" = true := by
  have h := c10_path_gate ["mnt", "raid5", "mp3s"] "x.mp3" false 3
  exact ⟨(h.1 (Or.inr rfl)).1, (h.1 (Or.inr rfl)).2, h.2 (by decide)⟩

end ServeStream
